import Mathlib

/-!
Shallow embedding of `src/PIPELINE/gee/export_three_dates_rgb8.js`, a Google
Earth Engine (GEE) script that picks three Sentinel-2 images (before / on /
after a target date) over a square region and exports them.

Modelling conventions:

* Time is measured in (fractional) days since the civil epoch; GEE stores
  `system:time_start` in milliseconds and `ee.Date.difference(.., 'day')`
  returns a fractional number of days, so a rational number of days is an
  exact affine rescaling of the source representation.
* A raster band restricted to the export region is modelled as the list of
  its unmasked sample values there; `reduceRegion` with the mean reducer
  returns `none` when every pixel is masked (no samples) and the mean
  otherwise.
* `ee.Algorithms.If(x, x, d)` on a number coerces the condition to a
  boolean: `null` and `0` are false.  This falsy-zero behaviour is part of
  the platform semantics and is embedded faithfully (`eeIfNum`).
* `ImageCollection.sort(prop, ascending)` is embedded as a stable sort
  (`List.insertionSort`) by the property, ascending or descending.
* `ImageCollection.first()` on an empty collection yields `null`; casting
  that to an image and using it fails at evaluation time.  This outcome is
  the `SelResult.nullResult` constructor, distinct from the explicitly
  constructed fully masked placeholder `ee.Image().updateMask(ee.Image(0))`
  (`SelResult.emptyPlaceholder`), which carries none of the metric
  properties.
-/

namespace SLCD

/-- Configuration constant `cloudProbThresh = 40` from the script. -/
def cloudProbThresh : ℚ := 40

/-- Configuration constant `maxCloudFrac = 0.02` from the script. -/
def maxCloudFrac : ℚ := 2 / 100

/-- Configuration constant `minValidFrac = 0.995` from the script. -/
def minValidFrac : ℚ := 995 / 1000

/-- Configuration constant `onFallbackNearestDays = 3` from the script. -/
def onFallbackNearestDays : ℚ := 3

/-- Configuration constant `cloudTieTolerance = 3` from the script. -/
def cloudTieTolerance : ℚ := 3

/-- Configuration constant `preLookbackDays = 30` from the script. -/
def preLookbackDays : ℚ := 30

/-- Configuration constant `postForwardDays = 10` from the script. -/
def postForwardDays : ℚ := 10

/-- One element of the `joined` collection: a Sentinel-2 SR observation
together with the cloud-probability image attached by the save-first join
(property `cloudprob`, possibly absent).  `time` is `system:time_start`
in days; `cloudprob` is the `probability` band of the joined
cloud-probability image sampled over the export region (`none` when the
join found no partner); `b2mask` is the `B2` mask band (1 = valid pixel,
0 = masked) sampled over the export region. -/
structure RawImage where
  time : ℚ
  cloudprob : Option (List ℚ)
  b2mask : List ℚ
deriving DecidableEq, Repr

/-- An observation after `addCloudProb`: the `probability` band is now
always present. -/
structure ProbImage where
  time : ℚ
  prob : List ℚ
  b2mask : List ℚ
deriving DecidableEq, Repr

/-- An observation after `addMetrics`: the three scalar quality metrics
are attached as properties. -/
structure Candidate where
  time : ℚ
  roiCloud : ℚ
  cloudFrac : ℚ
  validFrac : ℚ
deriving DecidableEq, Repr

/-- The mean reducer over the unmasked samples of a band: `none` when
there are no samples (GEE returns `null`), the arithmetic mean
otherwise. -/
def meanQ (l : List ℚ) : Option ℚ :=
  if l.isEmpty then none else some (l.sum / l.length)

/-- `ee.Algorithms.If(x, x, d)` on a nullable number: GEE coerces the
condition to a boolean, treating both `null` and `0` as false, so the
default `d` is substituted when `x` is absent or exactly zero. -/
def eeIfNum (x : Option ℚ) (d : ℚ) : ℚ :=
  match x with
  | none => d
  | some v => if v = 0 then d else v

/-- `addCloudProb` from the script: if the joined cloud-probability image
is absent, a constant image with value 100 stands in for the
`probability` band; a constant image is unmasked everywhere, so its
sample list over the export region has one value, 100, per region sample
point (`regionPix` of them). -/
def addCloudProb (regionPix : ℕ) (r : RawImage) : ProbImage :=
  { time := r.time
    prob :=
      match r.cloudprob with
      | some ps => ps
      | none => List.replicate regionPix 100
    b2mask := r.b2mask }

/-- `addMetrics` from the script: `roiCloud` is the mean cloud
probability (default 100), `cloudFrac` the fraction of samples with
probability strictly greater than `cloudProbThresh` (default 1),
`validFrac` the mean of the `B2` mask (default 0).  Each default is
applied through `ee.Algorithms.If` on the reducer output. -/
def addMetrics (p : ProbImage) : Candidate :=
  { time := p.time
    roiCloud := eeIfNum (meanQ p.prob) 100
    cloudFrac :=
      eeIfNum (meanQ (p.prob.map (fun v => if cloudProbThresh < v then 1 else 0))) 1
    validFrac := eeIfNum (meanQ p.b2mask) 0 }

/-- The composition `.map(addCloudProb).map(addMetrics)` applied to one
image. -/
def score (regionPix : ℕ) (r : RawImage) : Candidate :=
  addMetrics (addCloudProb regionPix r)

/-- `filterDate(dateStart, dateEnd)`: keeps observations with
`dateStart <= time < dateEnd` (GEE date filters are end-exclusive). -/
def filterDate (dateStart dateEnd : ℚ) (l : List RawImage) : List RawImage :=
  l.filter (fun r => decide (dateStart ≤ r.time ∧ r.time < dateEnd))

/-- A date window of the joined collection, scored:
`joined.filterDate(dateStart, dateEnd).map(addCloudProb).map(addMetrics)`. -/
def scoreWindow (joined : List RawImage) (regionPix : ℕ) (dateStart dateEnd : ℚ) :
    List Candidate :=
  (filterDate dateStart dateEnd joined).map (score regionPix)

/-- `qualityFilter` from the script: keep candidates with
`validFrac >= minValidFrac`, then `cloudFrac <= maxCloudFrac`. -/
def qualityFilter (col : List Candidate) : List Candidate :=
  (col.filter (fun c => decide (minValidFrac ≤ c.validFrac))).filter
    (fun c => decide (c.cloudFrac ≤ maxCloudFrac))

/-- The valid-only fallback tier:
`colAll.filter(ee.Filter.gte('validFrac', minValidFrac))`. -/
def validOnly (col : List Candidate) : List Candidate :=
  col.filter (fun c => decide (minValidFrac ≤ c.validFrac))

/-- The three-tier fallback used identically in both selectors:
strict tier if non-empty, else valid-only tier if non-empty, else the
unfiltered window. -/
def tierSelect (col : List Candidate) : List Candidate :=
  if 0 < (qualityFilter col).length then qualityFilter col
  else if 0 < (validOnly col).length then validOnly col
  else col

/-- `aggregate_min('roiCloud')`: minimum `roiCloud` over the collection
(the empty case is never reached in the script, which guards on a
non-empty window; 0 is an arbitrary value for it). -/
def minRoiCloud : List Candidate → ℚ
  | [] => 0
  | c :: cs => cs.foldl (fun m d => min m d.roiCloud) c.roiCloud

/-- The near-tie band:
`col.filter(ee.Filter.lte('roiCloud', minCloud.add(cloudTieTolerance)))`. -/
def bestOf (col : List Candidate) : List Candidate :=
  col.filter (fun c => decide (c.roiCloud ≤ minRoiCloud col + cloudTieTolerance))

/-- Ascending order on a rational-valued property, used to embed
`collection.sort(prop, true)`. -/
def keyLe {α : Type} (k : α → ℚ) : α → α → Prop := fun a b => k a ≤ k b

/-- Descending order on a rational-valued property, used to embed
`collection.sort(prop, false)`. -/
def keyGe {α : Type} (k : α → ℚ) : α → α → Prop := fun a b => k b ≤ k a

instance {α : Type} (k : α → ℚ) : DecidableRel (keyLe k) :=
  fun a b => inferInstanceAs (Decidable (k a ≤ k b))

instance {α : Type} (k : α → ℚ) : DecidableRel (keyGe k) :=
  fun a b => inferInstanceAs (Decidable (k b ≤ k a))

instance {α : Type} (k : α → ℚ) : IsTotal α (keyLe k) :=
  ⟨fun a b => le_total (k a) (k b)⟩

instance {α : Type} (k : α → ℚ) : IsTrans α (keyLe k) :=
  ⟨fun _ _ _ h h' => le_trans h h'⟩

instance {α : Type} (k : α → ℚ) : IsTotal α (keyGe k) :=
  ⟨fun a b => le_total (k b) (k a)⟩

instance {α : Type} (k : α → ℚ) : IsTrans α (keyGe k) :=
  ⟨fun _ _ _ h h' => le_trans h' h⟩

/-- `collection.sort(prop, ascending)`: a stable sort by the property,
ascending when the flag is true, descending otherwise. -/
def sortByProp {α : Type} (k : α → ℚ) (ascending : Bool) (l : List α) : List α :=
  if ascending then List.insertionSort (keyLe k) l else List.insertionSort (keyGe k) l

/-- Result of a selection: a concrete image, the explicitly constructed
fully masked placeholder `ee.Image().updateMask(ee.Image(0))` (which has
no metric properties), or the null obtained by casting `first()` of an
empty collection (which fails once used downstream). -/
inductive SelResult
  | image (c : Candidate)
  | emptyPlaceholder
  | nullResult
deriving DecidableEq, Repr

/-- Casting the `first()` element of a possibly empty collection to an
image: `null` when the collection is empty. -/
def ofFirst : Option Candidate → SelResult
  | some c => SelResult.image c
  | none => SelResult.nullResult

/-- The `roiCloud` property of a selection result, when present.  The
masked placeholder was built from a fresh `ee.Image()` and carries no
such property. -/
def SelResult.getRoiCloud : SelResult → Option ℚ
  | SelResult.image c => some c.roiCloud
  | _ => none

/-- The `cloudFrac` property of a selection result, when present. -/
def SelResult.getCloudFrac : SelResult → Option ℚ
  | SelResult.image c => some c.cloudFrac
  | _ => none

/-- The `validFrac` property of a selection result, when present. -/
def SelResult.getValidFrac : SelResult → Option ℚ
  | SelResult.image c => some c.validFrac
  | _ => none

/-- `selectMinCloudWithTimePref(dateStart, dateEnd, preferLatest)` from
the script: score the window, apply the three-tier fallback, keep the
near-tie band around the minimum `roiCloud`, sort by acquisition time
(descending when `preferLatest`), and take the first; if the window
itself is empty return the fully masked placeholder image. -/
def selectMinCloudWithTimePref (joined : List RawImage) (regionPix : ℕ)
    (dateStart dateEnd : ℚ) (preferLatest : Bool) : SelResult :=
  let colAll := scoreWindow joined regionPix dateStart dateEnd
  let col := tierSelect colAll
  let best := bestOf col
  let sorted := sortByProp (fun c => c.time) (!preferLatest) best
  if 0 < colAll.length then ofFirst sorted.head? else SelResult.emptyPlaceholder

/-- `absDiffDays`: absolute difference, in (fractional) days, between an
observation's acquisition time and the target date. -/
def absDiffDays (tDate : ℚ) (c : Candidate) : ℚ := |c.time - tDate|

/-- The composite sort key `d.multiply(1000).add(roiCloud)` set on each
member of the nearest pool. -/
def sortKey (tDate : ℚ) (c : Candidate) : ℚ :=
  absDiffDays tDate c * 1000 + c.roiCloud

/-- The exact-day pool `exactAll`:
`joined.filterDate(tDate, tDate.advance(1, 'day'))`, scored. -/
def onExactAll (joined : List RawImage) (regionPix : ℕ) (tDate : ℚ) : List Candidate :=
  scoreWindow joined regionPix tDate (tDate + 1)

/-- The filtered tier of the exact-day pool (`exact` in the script). -/
def onExactTier (joined : List RawImage) (regionPix : ℕ) (tDate : ℚ) : List Candidate :=
  tierSelect (onExactAll joined regionPix tDate)

/-- The nearest pool `nearestAll`:
`joined.filterDate(tDate.advance(-nearestDays,'day'), tDate.advance(nearestDays+1,'day'))`,
scored.  The script additionally sets the derived properties `sortKey`
and `absDiffDays` on each member; these are the functions `sortKey` and
`absDiffDays` above. -/
def onNearestAll (joined : List RawImage) (regionPix : ℕ) (tDate nearestDays : ℚ) :
    List Candidate :=
  scoreWindow joined regionPix (tDate - nearestDays) (tDate + nearestDays + 1)

/-- The filtered tier of the nearest pool (`nearest` in the script). -/
def onNearestTier (joined : List RawImage) (regionPix : ℕ) (tDate nearestDays : ℚ) :
    List Candidate :=
  tierSelect (onNearestAll joined regionPix tDate nearestDays)

/-- `exactChosen = exact.sort('roiCloud').first()`. -/
def exactChosen (joined : List RawImage) (regionPix : ℕ) (tDate : ℚ) : Option Candidate :=
  (sortByProp (fun c => c.roiCloud) true (onExactTier joined regionPix tDate)).head?

/-- `nearestChosen = nearest.sort('sortKey').first()`. -/
def nearestChosen (joined : List RawImage) (regionPix : ℕ) (tDate nearestDays : ℚ) :
    Option Candidate :=
  (sortByProp (sortKey tDate) true (onNearestTier joined regionPix tDate nearestDays)).head?

/-- `selectOnDayExactOrNearest(tDate, nearestDays)` from the script: if
the (pre-tier-filter) exact-day pool is non-empty take `exactChosen`,
otherwise take `nearestChosen`.  The script also sets the boolean
property `usedExactOnDay` on the result (see `usedExactOnDay`); setting a
property on the null result of an empty double-pool fails, which the
`nullResult` constructor already records. -/
def selectOnDayExactOrNearest (joined : List RawImage) (regionPix : ℕ)
    (tDate nearestDays : ℚ) : SelResult :=
  if 0 < (onExactAll joined regionPix tDate).length then
    ofFirst (exactChosen joined regionPix tDate)
  else
    ofFirst (nearestChosen joined regionPix tDate nearestDays)

/-- The `usedExactOnDay` flag set on the chosen on-day image:
`exactSize.gt(0)`. -/
def usedExactOnDay (joined : List RawImage) (regionPix : ℕ) (tDate : ℚ) : Bool :=
  0 < (onExactAll joined regionPix tDate).length

/-! ### Calendar dates and the three windows -/

/-- Whether a Gregorian calendar year is a leap year. -/
def isLeap (y : ℕ) : Bool :=
  (y % 4 == 0 && y % 100 != 0) || (y % 400 == 0)

/-- Days in the months before month `m` in a non-leap year
(`m` ranges over 1..12). -/
def daysBeforeMonth (m : ℕ) : ℕ :=
  [0, 31, 59, 90, 120, 151, 181, 212, 243, 273, 304, 334].getD (m - 1) 0

/-- The day number of the civil date `y-m-d` (midnight UTC), counted in
days from a fixed origin, with Gregorian leap rules; `ee.Date` holds the
same instant as a millisecond count, so this is the same clock up to the
constant factor 86,400,000 and choice of origin. -/
def dateToDay (y m d : ℕ) : ℕ :=
  365 * (y - 1) + (y - 1) / 4 - (y - 1) / 100 + (y - 1) / 400 +
    daysBeforeMonth m + (if 2 < m ∧ isLeap y then 1 else 0) + (d - 1)

/-- `targetDate = ee.Date('2025-11-30')`, as a day number. -/
def targetDate : ℚ := dateToDay 2025 11 30

/-- `preStart = targetDate.advance(-preLookbackDays, 'day')`. -/
def preStart : ℚ := targetDate - preLookbackDays

/-- `preEnd = targetDate` (end exclusive, so strictly before the target
date). -/
def preEnd : ℚ := targetDate

/-- `postStart = targetDate.advance(1, 'day')` (strictly after). -/
def postStart : ℚ := targetDate + 1

/-- `postEnd = targetDate.advance(postForwardDays + 1, 'day')`. -/
def postEnd : ℚ := targetDate + postForwardDays + 1

/-- `beforeImg = selectMinCloudWithTimePref(preStart, preEnd, true)`. -/
def beforeImg (joined : List RawImage) (regionPix : ℕ) : SelResult :=
  selectMinCloudWithTimePref joined regionPix preStart preEnd true

/-- `onImg = selectOnDayExactOrNearest(targetDate, onFallbackNearestDays)`. -/
def onImg (joined : List RawImage) (regionPix : ℕ) : SelResult :=
  selectOnDayExactOrNearest joined regionPix targetDate onFallbackNearestDays

/-- `afterImg = selectMinCloudWithTimePref(postStart, postEnd, false)`. -/
def afterImg (joined : List RawImage) (regionPix : ℕ) : SelResult :=
  selectMinCloudWithTimePref joined regionPix postStart postEnd false

/-! ### The square region

`roiUtm = ee.Geometry.Point([lon, lat]).transform(utm, 1)
  .buffer(halfSideMeters).bounds()`: a buffer of radius `halfSideMeters`
around the projected centre point, followed by `bounds()`, the axis-aligned
bounding box in the projected CRS.  The buffer of a point is the closed
disk; `bounds` returns the least axis-aligned box containing its
argument. -/

/-- `squareAreaKm2 = 10` from the script. -/
def squareAreaKm2 : ℝ := 10

/-- The side length of a square of area `squareAreaKm2` km², in metres
(the script only materialises half of it). -/
noncomputable def sideMeters : ℝ := Real.sqrt (squareAreaKm2 * 1000000)

/-- `halfSideMeters = Math.sqrt(squareAreaKm2 * 1e6) / 2` from the
script. -/
noncomputable def halfSideMeters : ℝ := Real.sqrt (squareAreaKm2 * 1000000) / 2

/-- `point.buffer(r)`: the closed disk of radius `r` around the point,
in the projected plane. -/
def bufferDisk (center : ℝ × ℝ) (r : ℝ) : Set (ℝ × ℝ) :=
  {p | (p.1 - center.1) ^ 2 + (p.2 - center.2) ^ 2 ≤ r ^ 2}

/-- The axis-aligned square with the given centre and half-side. -/
def axisAlignedSquare (center : ℝ × ℝ) (h : ℝ) : Set (ℝ × ℝ) :=
  Set.Icc (center.1 - h) (center.1 + h) ×ˢ Set.Icc (center.2 - h) (center.2 + h)

/-- An axis-aligned box in the projected plane: a product of two closed
intervals. -/
def IsAxisAlignedBox (b : Set (ℝ × ℝ)) : Prop :=
  ∃ x1 x2 y1 y2, b = Set.Icc x1 x2 ×ˢ Set.Icc y1 y2

/-! ### General facts about the embedded operations -/

theorem head_insertionSort_spec {α : Type} (r : α → α → Prop) [DecidableRel r]
    [IsTotal α r] [IsTrans α r] {l : List α} {c : α}
    (h : (List.insertionSort r l).head? = some c) :
    c ∈ l ∧ ∀ x ∈ l, r c x := by
  have hs := List.sorted_insertionSort r l
  have hp := List.perm_insertionSort r l
  cases hsort : List.insertionSort r l with
  | nil => rw [hsort] at h; cases h
  | cons a t =>
    rw [hsort] at h hs hp
    have hac : a = c := by simpa using h
    subst hac
    refine ⟨hp.mem_iff.mp (List.mem_cons_self a t), ?_⟩
    intro x hx
    rcases List.mem_cons.mp (hp.mem_iff.mpr hx) with rfl | hxt
    · exact (total_of r x x).elim id id
    · exact List.rel_of_sorted_cons hs x hxt

theorem head_insertionSort_isSome {α : Type} (r : α → α → Prop) [DecidableRel r]
    {l : List α} (h : l ≠ []) :
    ∃ c, (List.insertionSort r l).head? = some c := by
  cases hsort : List.insertionSort r l with
  | nil =>
    have hp := List.perm_insertionSort r l
    rw [hsort] at hp
    exact absurd hp.symm.eq_nil h
  | cons a t => exact ⟨a, rfl⟩

theorem foldl_min_le_init (l : List Candidate) (a : ℚ) :
    l.foldl (fun m d => min m d.roiCloud) a ≤ a := by
  induction l generalizing a with
  | nil => exact le_refl a
  | cons c cs ih => exact le_trans (ih (min a c.roiCloud)) (min_le_left _ _)

theorem foldl_min_le_mem :
    ∀ (l : List Candidate) (a : ℚ) {c : Candidate}, c ∈ l →
      l.foldl (fun m d => min m d.roiCloud) a ≤ c.roiCloud
  | [], _, _, hc => by simp at hc
  | d :: ds, a, c, hc => by
    rcases List.mem_cons.mp hc with rfl | hmem
    · exact le_trans (foldl_min_le_init ds (min a c.roiCloud)) (min_le_right _ _)
    · exact foldl_min_le_mem ds (min a d.roiCloud) hmem

theorem foldl_min_attained (l : List Candidate) (a : ℚ) :
    l.foldl (fun m d => min m d.roiCloud) a = a ∨
      ∃ c ∈ l, l.foldl (fun m d => min m d.roiCloud) a = c.roiCloud := by
  induction l generalizing a with
  | nil => exact Or.inl rfl
  | cons d ds ih =>
    rcases ih (min a d.roiCloud) with h | ⟨c, hc, hfold⟩
    · simp only [List.foldl_cons] at *
      rcases min_cases a d.roiCloud with ⟨hm, _⟩ | ⟨hm, _⟩
      · exact Or.inl (h.trans hm)
      · exact Or.inr ⟨d, List.mem_cons_self d ds, h.trans hm⟩
    · exact Or.inr ⟨c, List.mem_cons_of_mem d hc, hfold⟩

theorem minRoiCloud_le {l : List Candidate} {c : Candidate} (hc : c ∈ l) :
    minRoiCloud l ≤ c.roiCloud := by
  cases l with
  | nil => cases hc
  | cons d ds =>
    rcases List.mem_cons.mp hc with rfl | hmem
    · exact foldl_min_le_init ds c.roiCloud
    · exact foldl_min_le_mem ds d.roiCloud hmem

theorem minRoiCloud_attained {l : List Candidate} (h : l ≠ []) :
    ∃ c ∈ l, minRoiCloud l = c.roiCloud := by
  cases l with
  | nil => exact absurd rfl h
  | cons d ds =>
    rcases foldl_min_attained ds d.roiCloud with hfold | ⟨c, hc, hfold⟩
    · exact ⟨d, List.mem_cons_self d ds, hfold⟩
    · exact ⟨c, List.mem_cons_of_mem d hc, hfold⟩

theorem mem_bestOf {l : List Candidate} {c : Candidate} :
    c ∈ bestOf l ↔ c ∈ l ∧ c.roiCloud ≤ minRoiCloud l + cloudTieTolerance := by
  simp [bestOf, List.mem_filter]

theorem bestOf_ne_nil {l : List Candidate} (h : l ≠ []) : bestOf l ≠ [] := by
  obtain ⟨c, hc, hmin⟩ := minRoiCloud_attained h
  refine List.ne_nil_of_mem (mem_bestOf.mpr ⟨hc, ?_⟩)
  rw [← hmin]
  have : (0 : ℚ) ≤ cloudTieTolerance := by norm_num [cloudTieTolerance]
  linarith

theorem qualityFilter_sublist_validOnly (col : List Candidate) :
    (qualityFilter col).Sublist (validOnly col) :=
  List.filter_sublist _

theorem validOnly_sublist (col : List Candidate) : (validOnly col).Sublist col :=
  List.filter_sublist _

theorem tierSelect_ne_nil {col : List Candidate} (h : col ≠ []) : tierSelect col ≠ [] := by
  unfold tierSelect
  split
  · next hlen => exact List.length_pos.mp hlen
  · split
    · next hlen => exact List.length_pos.mp hlen
    · exact h

theorem tierSelect_subset (col : List Candidate) : tierSelect col ⊆ col := by
  unfold tierSelect
  split
  · exact ((qualityFilter_sublist_validOnly col).trans (validOnly_sublist col)).subset
  · split
    · exact (validOnly_sublist col).subset
    · exact fun _ hc => hc

theorem scoreWindow_ne_nil_iff (joined : List RawImage) (regionPix : ℕ)
    (dateStart dateEnd : ℚ) :
    scoreWindow joined regionPix dateStart dateEnd ≠ [] ↔
      filterDate dateStart dateEnd joined ≠ [] := by
  simp [scoreWindow]

/-- The common specification of `selectMinCloudWithTimePref` on a non-empty
window: it returns an image from the near-tie band of the winning tier,
latest first when `preferLatest`, earliest first otherwise. -/
theorem selectMinCloud_spec (joined : List RawImage) (regionPix : ℕ)
    (dateStart dateEnd : ℚ) (preferLatest : Bool)
    (h : scoreWindow joined regionPix dateStart dateEnd ≠ []) :
    ∃ c, selectMinCloudWithTimePref joined regionPix dateStart dateEnd preferLatest =
        SelResult.image c ∧
      c ∈ bestOf (tierSelect (scoreWindow joined regionPix dateStart dateEnd)) ∧
      (preferLatest = true →
        ∀ x ∈ bestOf (tierSelect (scoreWindow joined regionPix dateStart dateEnd)),
          x.time ≤ c.time) ∧
      (preferLatest = false →
        ∀ x ∈ bestOf (tierSelect (scoreWindow joined regionPix dateStart dateEnd)),
          c.time ≤ x.time) := by
  have hbest : bestOf (tierSelect (scoreWindow joined regionPix dateStart dateEnd)) ≠ [] :=
    bestOf_ne_nil (tierSelect_ne_nil h)
  have hlen : 0 < (scoreWindow joined regionPix dateStart dateEnd).length :=
    List.length_pos.mpr h
  cases preferLatest with
  | false =>
    obtain ⟨c, hc⟩ :=
      head_insertionSort_isSome (keyLe (fun c : Candidate => c.time)) hbest
    obtain ⟨hmem, hall⟩ := head_insertionSort_spec (keyLe (fun c : Candidate => c.time)) hc
    have hsel : selectMinCloudWithTimePref joined regionPix dateStart dateEnd false =
        ofFirst ((List.insertionSort (keyLe (fun c : Candidate => c.time))
          (bestOf (tierSelect (scoreWindow joined regionPix dateStart dateEnd)))).head?) := by
      simp [selectMinCloudWithTimePref, sortByProp, hlen]
    refine ⟨c, ?_, hmem, fun hcontra => absurd hcontra (by simp), fun _ => hall⟩
    rw [hsel, hc]
    rfl
  | true =>
    obtain ⟨c, hc⟩ :=
      head_insertionSort_isSome (keyGe (fun c : Candidate => c.time)) hbest
    obtain ⟨hmem, hall⟩ := head_insertionSort_spec (keyGe (fun c : Candidate => c.time)) hc
    have hsel : selectMinCloudWithTimePref joined regionPix dateStart dateEnd true =
        ofFirst ((List.insertionSort (keyGe (fun c : Candidate => c.time))
          (bestOf (tierSelect (scoreWindow joined regionPix dateStart dateEnd)))).head?) := by
      simp [selectMinCloudWithTimePref, sortByProp, hlen]
    refine ⟨c, ?_, hmem, fun _ => hall, fun hcontra => absurd hcontra (by simp)⟩
    rw [hsel, hc]
    rfl

theorem meanQ_le {l : List ℚ} {bound : ℚ} (h : ∀ v ∈ l, v ≤ bound) :
    ∀ q, meanQ l = some q → q ≤ bound := by
  intro q hq
  unfold meanQ at hq
  split at hq
  · cases hq
  · next hne =>
    have hnil : l ≠ [] := by simpa [List.isEmpty_iff] using hne
    have hlen : 0 < (l.length : ℚ) := by exact_mod_cast List.length_pos.mpr hnil
    have hsum : l.sum ≤ l.length • bound := List.sum_le_card_nsmul l bound h
    rw [nsmul_eq_mul] at hsum
    have := Option.some.inj hq
    rw [← this, div_le_iff₀ hlen]
    linarith

theorem meanQ_nonneg {l : List ℚ} (h : ∀ v ∈ l, 0 ≤ v) :
    ∀ q, meanQ l = some q → 0 ≤ q := by
  intro q hq
  unfold meanQ at hq
  split at hq
  · cases hq
  · next hne =>
    have hnil : l ≠ [] := by simpa [List.isEmpty_iff] using hne
    have hlen : (0 : ℚ) ≤ (l.length : ℚ) := by positivity
    have hsum : (0 : ℚ) ≤ l.sum := List.sum_nonneg h
    rw [← Option.some.inj hq]
    exact div_nonneg hsum hlen

theorem meanQ_replicate {n : ℕ} (hn : 0 < n) (x : ℚ) :
    meanQ (List.replicate n x) = some x := by
  unfold meanQ
  rw [if_neg (by simp [List.isEmpty_iff, hn.ne'])]
  rw [List.sum_replicate, List.length_replicate, nsmul_eq_mul]
  have hne : (n : ℚ) ≠ 0 := by exact_mod_cast hn.ne'
  congr 1
  field_simp

theorem eeIfNum_le {x : Option ℚ} {d bound : ℚ} (hx : ∀ q, x = some q → q ≤ bound)
    (hd : d ≤ bound) : eeIfNum x d ≤ bound := by
  cases x with
  | none => exact hd
  | some v =>
    simp only [eeIfNum]
    by_cases hv : v = 0
    · rw [if_pos hv]; exact hd
    · rw [if_neg hv]; exact hx v rfl

theorem eeIfNum_nonneg {x : Option ℚ} {d : ℚ} (hx : ∀ q, x = some q → 0 ≤ q)
    (hd : 0 ≤ d) : 0 ≤ eeIfNum x d := by
  cases x with
  | none => exact hd
  | some v =>
    simp only [eeIfNum]
    by_cases hv : v = 0
    · rw [if_pos hv]; exact hd
    · rw [if_neg hv]; exact hx v rfl

/-! ### The claims -/

/-- Claim C1: for the on-target window, if any candidate's acquisition
date equals the target date (i.e. the exact-day pool is non-empty), the
final selection is the lowest-`roiCloud` candidate of the exact-day
pool's filtered tier — `exactChosen`, which does not depend on the
nearest pool — and the nearest pool's choice is used only when the
exact-day pool is empty. -/
theorem claim_C1 (joined : List RawImage) (regionPix : ℕ) (tDate nearestDays : ℚ) :
    (onExactAll joined regionPix tDate ≠ [] →
      ∃ c, exactChosen joined regionPix tDate = some c
        ∧ selectOnDayExactOrNearest joined regionPix tDate nearestDays = SelResult.image c
        ∧ c ∈ onExactTier joined regionPix tDate
        ∧ ∀ x ∈ onExactTier joined regionPix tDate, c.roiCloud ≤ x.roiCloud)
    ∧ (onExactAll joined regionPix tDate = [] →
      selectOnDayExactOrNearest joined regionPix tDate nearestDays =
        ofFirst (nearestChosen joined regionPix tDate nearestDays)) := by
  constructor
  · intro h
    have htier : onExactTier joined regionPix tDate ≠ [] := tierSelect_ne_nil h
    obtain ⟨c, hc⟩ :=
      head_insertionSort_isSome (keyLe (fun c : Candidate => c.roiCloud)) htier
    have hec : exactChosen joined regionPix tDate = some c := by
      simpa [exactChosen, sortByProp] using hc
    obtain ⟨hmem, hall⟩ := head_insertionSort_spec (keyLe (fun c : Candidate => c.roiCloud)) hc
    refine ⟨c, hec, ?_, hmem, hall⟩
    simp [selectOnDayExactOrNearest, List.length_pos.mpr h, hec, ofFirst]
  · intro h
    simp [selectOnDayExactOrNearest, h]

/-- Witness for C1: a single candidate acquired on the target day (time
0, with a clear cloud-probability raster) is selected from the exact-day
pool. -/
theorem claim_C1_witness :
    onExactAll [{ time := 0, cloudprob := some [5], b2mask := [1] }] 1 0 ≠ []
    ∧ ∃ c, exactChosen [{ time := 0, cloudprob := some [5], b2mask := [1] }] 1 0 = some c
        ∧ selectOnDayExactOrNearest [{ time := 0, cloudprob := some [5], b2mask := [1] }] 1 0 3
            = SelResult.image c
        ∧ c ∈ onExactTier [{ time := 0, cloudprob := some [5], b2mask := [1] }] 1 0
        ∧ ∀ x ∈ onExactTier [{ time := 0, cloudprob := some [5], b2mask := [1] }] 1 0,
            c.roiCloud ≤ x.roiCloud := by
  have h : onExactAll [{ time := 0, cloudprob := some [5], b2mask := [1] }] 1 0 ≠ [] := by
    norm_num [onExactAll, scoreWindow, filterDate, List.filter]
  exact ⟨h, (claim_C1 [{ time := 0, cloudprob := some [5], b2mask := [1] }] 1 0 3).1 h⟩

/-- Claim C4: the quality tiers are monotone by inclusion — the strict
tier is a sublist of the valid-only tier, which is a sublist of the
unfiltered pool — and the tier used for selection is the first non-empty
one of the three. -/
theorem claim_C4 (col : List Candidate) :
    (qualityFilter col).Sublist (validOnly col)
    ∧ (validOnly col).Sublist col
    ∧ (qualityFilter col ≠ [] → tierSelect col = qualityFilter col)
    ∧ (qualityFilter col = [] → validOnly col ≠ [] → tierSelect col = validOnly col)
    ∧ (qualityFilter col = [] → validOnly col = [] → tierSelect col = col) := by
  refine ⟨qualityFilter_sublist_validOnly col, validOnly_sublist col, ?_, ?_, ?_⟩
  · intro h
    simp [tierSelect, List.length_pos.mpr h]
  · intro h1 h2
    simp [tierSelect, h1, List.length_pos.mpr h2]
  · intro h1 h2
    simp [tierSelect, h1, h2]

/-- Witness for C4: a pool with one strict-quality candidate
(validFrac 1, cloudFrac 0.01) makes the strict tier win. -/
theorem claim_C4_witness :
    qualityFilter [{ time := 0, roiCloud := 5, cloudFrac := 1/100, validFrac := 1 }] ≠ []
    ∧ tierSelect [{ time := 0, roiCloud := 5, cloudFrac := 1/100, validFrac := 1 }]
        = qualityFilter [{ time := 0, roiCloud := 5, cloudFrac := 1/100, validFrac := 1 }] := by
  have h : qualityFilter [{ time := 0, roiCloud := 5, cloudFrac := 1/100, validFrac := 1 }] ≠ [] := by
    norm_num [qualityFilter, List.filter, minValidFrac, maxCloudFrac]
  exact ⟨h,
    (claim_C4 [{ time := 0, roiCloud := 5, cloudFrac := 1/100, validFrac := 1 }]).2.2.1 h⟩

/-- Claim C5: on a non-empty window, the candidate chosen by
`selectMinCloudWithTimePref` has `roiCloud` at most the minimum
`roiCloud` of the winning tier plus `cloudTieTolerance`. -/
theorem claim_C5 (joined : List RawImage) (regionPix : ℕ) (dateStart dateEnd : ℚ)
    (preferLatest : Bool) (h : scoreWindow joined regionPix dateStart dateEnd ≠ []) :
    ∃ c, selectMinCloudWithTimePref joined regionPix dateStart dateEnd preferLatest
        = SelResult.image c
      ∧ c.roiCloud ≤
          minRoiCloud (tierSelect (scoreWindow joined regionPix dateStart dateEnd))
            + cloudTieTolerance := by
  obtain ⟨c, hsel, hmem, -, -⟩ :=
    selectMinCloud_spec joined regionPix dateStart dateEnd preferLatest h
  exact ⟨c, hsel, (mem_bestOf.mp hmem).2⟩

/-- Witness for C5: a one-candidate window. -/
theorem claim_C5_witness :
    scoreWindow [{ time := 0, cloudprob := some [5], b2mask := [1] }] 1 0 1 ≠ []
    ∧ ∃ c, selectMinCloudWithTimePref [{ time := 0, cloudprob := some [5], b2mask := [1] }] 1 0 1 true
        = SelResult.image c
      ∧ c.roiCloud ≤
          minRoiCloud (tierSelect (scoreWindow [{ time := 0, cloudprob := some [5], b2mask := [1] }] 1 0 1))
            + cloudTieTolerance := by
  have h : scoreWindow [{ time := 0, cloudprob := some [5], b2mask := [1] }] 1 0 1 ≠ [] := by
    norm_num [scoreWindow, filterDate, List.filter]
  exact ⟨h, claim_C5 [{ time := 0, cloudprob := some [5], b2mask := [1] }] 1 0 1 true h⟩

/-- Claim C6: within the near-tie band of a non-empty window,
`selectMinCloudWithTimePref` returns a candidate whose acquisition time
is maximal when `preferLatest = true` and minimal when
`preferLatest = false`; the before-window is selected with `true` and
the after-window with `false`. -/
theorem claim_C6 (joined : List RawImage) (regionPix : ℕ) (dateStart dateEnd : ℚ)
    (preferLatest : Bool) (h : scoreWindow joined regionPix dateStart dateEnd ≠ []) :
    (∃ c, selectMinCloudWithTimePref joined regionPix dateStart dateEnd preferLatest
        = SelResult.image c
      ∧ c ∈ bestOf (tierSelect (scoreWindow joined regionPix dateStart dateEnd))
      ∧ (preferLatest = true →
          ∀ x ∈ bestOf (tierSelect (scoreWindow joined regionPix dateStart dateEnd)),
            x.time ≤ c.time)
      ∧ (preferLatest = false →
          ∀ x ∈ bestOf (tierSelect (scoreWindow joined regionPix dateStart dateEnd)),
            c.time ≤ x.time))
    ∧ (∀ (j : List RawImage) (rp : ℕ),
        beforeImg j rp = selectMinCloudWithTimePref j rp preStart preEnd true)
    ∧ (∀ (j : List RawImage) (rp : ℕ),
        afterImg j rp = selectMinCloudWithTimePref j rp postStart postEnd false) :=
  ⟨selectMinCloud_spec joined regionPix dateStart dateEnd preferLatest h,
    fun _ _ => rfl, fun _ _ => rfl⟩

/-- Witness for C6: a two-candidate window with equal metrics; with
`preferLatest = true` the later one is returned. -/
theorem claim_C6_witness :
    scoreWindow [{ time := 0, cloudprob := some [5], b2mask := [1] },
        { time := 1, cloudprob := some [5], b2mask := [1] }] 1 0 2 ≠ []
    ∧ (∃ c, selectMinCloudWithTimePref [{ time := 0, cloudprob := some [5], b2mask := [1] },
          { time := 1, cloudprob := some [5], b2mask := [1] }] 1 0 2 true
        = SelResult.image c
      ∧ c ∈ bestOf (tierSelect (scoreWindow [{ time := 0, cloudprob := some [5], b2mask := [1] },
          { time := 1, cloudprob := some [5], b2mask := [1] }] 1 0 2))
      ∧ (true = true →
          ∀ x ∈ bestOf (tierSelect (scoreWindow [{ time := 0, cloudprob := some [5], b2mask := [1] },
              { time := 1, cloudprob := some [5], b2mask := [1] }] 1 0 2)),
            x.time ≤ c.time)
      ∧ (true = false →
          ∀ x ∈ bestOf (tierSelect (scoreWindow [{ time := 0, cloudprob := some [5], b2mask := [1] },
              { time := 1, cloudprob := some [5], b2mask := [1] }] 1 0 2)),
            c.time ≤ x.time)) := by
  have h : scoreWindow [{ time := 0, cloudprob := some [5], b2mask := [1] },
      { time := 1, cloudprob := some [5], b2mask := [1] }] 1 0 2 ≠ [] := by
    intro hcontra
    norm_num [scoreWindow, filterDate, List.filter] at hcontra
    exact List.cons_ne_nil _ _ hcontra
  exact ⟨h, (claim_C6 [{ time := 0, cloudprob := some [5], b2mask := [1] },
    { time := 1, cloudprob := some [5], b2mask := [1] }] 1 0 2 true h).1⟩

/-- Claim C7: the before-window is the half-open interval
`[targetDate - preLookbackDays, targetDate)`; with target date
2025-11-30 and a 30-day lookback its start is 2025-10-31, and no
observation acquired at or after the target date is in the window. -/
theorem claim_C7 :
    preStart = (dateToDay 2025 10 31 : ℚ)
    ∧ preEnd = targetDate
    ∧ (∀ (joined : List RawImage) (r : RawImage),
        r ∈ filterDate preStart preEnd joined ↔
          r ∈ joined ∧ preStart ≤ r.time ∧ r.time < targetDate)
    ∧ (∀ (joined : List RawImage) (r : RawImage), targetDate ≤ r.time →
        r ∉ filterDate preStart preEnd joined) := by
  have hday : dateToDay 2025 11 30 = dateToDay 2025 10 31 + 30 := by decide
  have hmem : ∀ (joined : List RawImage) (r : RawImage),
      r ∈ filterDate preStart preEnd joined ↔
        r ∈ joined ∧ preStart ≤ r.time ∧ r.time < targetDate := by
    intro joined r
    simp [filterDate, List.mem_filter, preEnd]
  refine ⟨?_, rfl, hmem, ?_⟩
  · rw [preStart, targetDate, preLookbackDays, hday]
    push_cast
    ring
  · intro joined r hr hin
    have := ((hmem joined r).mp hin).2.2
    linarith

/-- Witness for C7: an observation acquired exactly at the target date
is excluded from the before-window. -/
theorem claim_C7_witness :
    targetDate ≤ ({ time := targetDate, cloudprob := none, b2mask := [] } : RawImage).time
    ∧ ({ time := targetDate, cloudprob := none, b2mask := [] } : RawImage) ∉
        filterDate preStart preEnd [{ time := targetDate, cloudprob := none, b2mask := [] }] :=
  ⟨le_refl _,
    claim_C7.2.2.2 [{ time := targetDate, cloudprob := none, b2mask := [] }]
      { time := targetDate, cloudprob := none, b2mask := [] } (le_refl _)⟩

/-- Claim C10: whenever the window's candidate pool is non-empty, the
near-tie band of the winning tier is non-empty, so the selection always
returns an actual image (it never dereferences an empty collection). -/
theorem claim_C10 (joined : List RawImage) (regionPix : ℕ) (dateStart dateEnd : ℚ)
    (preferLatest : Bool) (h : scoreWindow joined regionPix dateStart dateEnd ≠ []) :
    bestOf (tierSelect (scoreWindow joined regionPix dateStart dateEnd)) ≠ []
    ∧ ∃ c, selectMinCloudWithTimePref joined regionPix dateStart dateEnd preferLatest
        = SelResult.image c := by
  obtain ⟨c, hc, -, -⟩ := selectMinCloud_spec joined regionPix dateStart dateEnd preferLatest h
  exact ⟨bestOf_ne_nil (tierSelect_ne_nil h), c, hc⟩

/-- Witness for C10: one candidate in the window. -/
theorem claim_C10_witness :
    scoreWindow [{ time := 0, cloudprob := none, b2mask := [] }] 0 0 1 ≠ []
    ∧ bestOf (tierSelect (scoreWindow [{ time := 0, cloudprob := none, b2mask := [] }] 0 0 1)) ≠ []
    ∧ ∃ c, selectMinCloudWithTimePref [{ time := 0, cloudprob := none, b2mask := [] }] 0 0 1 false
        = SelResult.image c := by
  have h : scoreWindow [{ time := 0, cloudprob := none, b2mask := [] }] 0 0 1 ≠ [] := by
    norm_num [scoreWindow, filterDate, List.filter]
  obtain ⟨h1, h2⟩ := claim_C10 [{ time := 0, cloudprob := none, b2mask := [] }] 0 0 1 false h
  exact ⟨h, h1, h2⟩

/-- Claim C2 is false as stated: `ee.Date.difference(.., 'day')` is
fractional, so two nearest-pool candidates can have day-distances
d1 < d2 whose gap is smaller than the cloud-probability gap divided by
1000.  Here (target day 0) a candidate at distance 1.01 days with
`roiCloud` 99 loses to one at distance 1.05 days with `roiCloud` 1:
the larger distance wins, both inside the winning tier. -/
theorem claim_C2_counterexample :
    absDiffDays 0 (score 1 { time := 101/100, cloudprob := some [99], b2mask := [1] })
        < absDiffDays 0 (score 1 { time := 105/100, cloudprob := some [1], b2mask := [1] })
    ∧ score 1 { time := 101/100, cloudprob := some [99], b2mask := [1] }
        ∈ onNearestTier [{ time := 101/100, cloudprob := some [99], b2mask := [1] },
            { time := 105/100, cloudprob := some [1], b2mask := [1] }] 1 0 3
    ∧ score 1 { time := 105/100, cloudprob := some [1], b2mask := [1] }
        ∈ onNearestTier [{ time := 101/100, cloudprob := some [99], b2mask := [1] },
            { time := 105/100, cloudprob := some [1], b2mask := [1] }] 1 0 3
    ∧ sortKey 0 (score 1 { time := 105/100, cloudprob := some [1], b2mask := [1] })
        < sortKey 0 (score 1 { time := 101/100, cloudprob := some [99], b2mask := [1] })
    ∧ selectOnDayExactOrNearest [{ time := 101/100, cloudprob := some [99], b2mask := [1] },
          { time := 105/100, cloudprob := some [1], b2mask := [1] }] 1 0 3
        = SelResult.image (score 1 { time := 105/100, cloudprob := some [1], b2mask := [1] }) := by
  refine ⟨?_, ?_, ?_, ?_, ?_⟩ <;>
    norm_num [selectOnDayExactOrNearest, onExactAll, onNearestAll, onExactTier, onNearestTier,
      scoreWindow, filterDate, score, addCloudProb, addMetrics, meanQ, eeIfNum, tierSelect,
      qualityFilter, validOnly, exactChosen, nearestChosen, sortByProp, keyLe, keyGe, sortKey,
      absDiffDays, ofFirst, List.filter, List.insertionSort, List.orderedInsert,
      cloudProbThresh, minValidFrac, maxCloudFrac, abs, max_def]

/-- Claim C2 (amended): within the nearest pool, the candidate at the
smaller day-distance d1 has the smaller sort key provided the distance
gap dominates the cloud gap, `roiCloud1 - roiCloud2 < 1000 * (d2 - d1)`;
in particular this always holds when the cloud probabilities lie in
[0, 100] and the distances differ by more than 0.1 day (so for any
whole-day gap).  At equal distances the lower `roiCloud` always has the
smaller key. -/
theorem claim_C2_amended (tDate : ℚ) (a b : Candidate) :
    (absDiffDays tDate a < absDiffDays tDate b →
      a.roiCloud - b.roiCloud < 1000 * (absDiffDays tDate b - absDiffDays tDate a) →
      sortKey tDate a < sortKey tDate b)
    ∧ (absDiffDays tDate a = absDiffDays tDate b → a.roiCloud < b.roiCloud →
      sortKey tDate a < sortKey tDate b)
    ∧ (a.roiCloud ≤ 100 → 0 ≤ b.roiCloud →
      absDiffDays tDate a + 1/10 < absDiffDays tDate b →
      sortKey tDate a < sortKey tDate b) := by
  refine ⟨?_, ?_, ?_⟩
  · intro _ h2
    simp only [sortKey]
    linarith
  · intro h1 h2
    simp only [sortKey, h1]
    linarith
  · intro h1 h2 h3
    simp only [sortKey]
    linarith

/-- Witness for the amended C2: with clouds in range, a whole-day gap
(distance 2 versus 3) dominates a cloud gap of 5 versus 0. -/
theorem claim_C2_amended_witness :
    ({ time := 2, roiCloud := 5, cloudFrac := 0, validFrac := 1 } : Candidate).roiCloud ≤ 100
    ∧ (0 : ℚ) ≤ ({ time := 3, roiCloud := 0, cloudFrac := 0, validFrac := 1 } : Candidate).roiCloud
    ∧ absDiffDays 0 { time := 2, roiCloud := 5, cloudFrac := 0, validFrac := 1 } + 1/10
        < absDiffDays 0 { time := 3, roiCloud := 0, cloudFrac := 0, validFrac := 1 }
    ∧ sortKey 0 { time := 2, roiCloud := 5, cloudFrac := 0, validFrac := 1 }
        < sortKey 0 { time := 3, roiCloud := 0, cloudFrac := 0, validFrac := 1 } := by
  have h1 : ({ time := 2, roiCloud := 5, cloudFrac := 0, validFrac := 1 } : Candidate).roiCloud
      ≤ 100 := by norm_num
  have h2 : (0 : ℚ) ≤
      ({ time := 3, roiCloud := 0, cloudFrac := 0, validFrac := 1 } : Candidate).roiCloud := by
    norm_num
  have h3 : absDiffDays 0 { time := 2, roiCloud := 5, cloudFrac := 0, validFrac := 1 } + 1/10
      < absDiffDays 0 { time := 3, roiCloud := 0, cloudFrac := 0, validFrac := 1 } := by
    norm_num [absDiffDays, abs, max_def]
  exact ⟨h1, h2, h3,
    (claim_C2_amended 0 { time := 2, roiCloud := 5, cloudFrac := 0, validFrac := 1 }
      { time := 3, roiCloud := 0, cloudFrac := 0, validFrac := 1 }).2.2 h1 h2 h3⟩

/-- Claim C3 is false as stated for the on-target window: with zero
candidates in both on-day pools the selection is the cast of `first()`
of an empty collection — a null that fails downstream — not the fully
masked placeholder; only `selectMinCloudWithTimePref` builds the
placeholder. -/
theorem claim_C3_counterexample :
    filterDate (0 - 3) (0 + 3 + 1) ([] : List RawImage) = []
    ∧ selectOnDayExactOrNearest [] 1 0 3 = SelResult.nullResult
    ∧ selectOnDayExactOrNearest [] 1 0 3 ≠ SelResult.emptyPlaceholder := by
  refine ⟨rfl, rfl, ?_⟩
  intro h
  cases h

/-- Claim C3 (amended): for the before- and after-windows, an empty
window makes `selectMinCloudWithTimePref` return the fully masked
placeholder, whose `roiCloud`, `cloudFrac` and `validFrac` properties
are absent; the on-day selector has no placeholder branch and returns
the failing null when both of its pools are empty. -/
theorem claim_C3_amended (joined j2 : List RawImage) (rp rp2 : ℕ)
    (dateStart dateEnd tDate nearestDays : ℚ) (preferLatest : Bool)
    (h : filterDate dateStart dateEnd joined = []) :
    (selectMinCloudWithTimePref joined rp dateStart dateEnd preferLatest
        = SelResult.emptyPlaceholder
      ∧ (selectMinCloudWithTimePref joined rp dateStart dateEnd preferLatest).getRoiCloud = none
      ∧ (selectMinCloudWithTimePref joined rp dateStart dateEnd preferLatest).getCloudFrac = none
      ∧ (selectMinCloudWithTimePref joined rp dateStart dateEnd preferLatest).getValidFrac = none)
    ∧ (onExactAll j2 rp2 tDate = [] → onNearestAll j2 rp2 tDate nearestDays = [] →
        selectOnDayExactOrNearest j2 rp2 tDate nearestDays = SelResult.nullResult) := by
  constructor
  · have hsel : selectMinCloudWithTimePref joined rp dateStart dateEnd preferLatest
        = SelResult.emptyPlaceholder := by
      simp [selectMinCloudWithTimePref, scoreWindow, h]
    refine ⟨hsel, ?_, ?_, ?_⟩ <;> rw [hsel] <;> rfl
  · intro h1 h2
    simp [selectOnDayExactOrNearest, h1, nearestChosen, onNearestTier, h2, tierSelect,
      qualityFilter, validOnly, sortByProp, ofFirst]

/-- Witness for the amended C3: the empty catalog. -/
theorem claim_C3_amended_witness :
    filterDate 0 1 ([] : List RawImage) = []
    ∧ selectMinCloudWithTimePref [] 1 0 1 true = SelResult.emptyPlaceholder
    ∧ (selectMinCloudWithTimePref [] 1 0 1 true).getRoiCloud = none
    ∧ onExactAll [] 1 0 = []
    ∧ onNearestAll [] 1 0 3 = []
    ∧ selectOnDayExactOrNearest [] 1 0 3 = SelResult.nullResult := by
  obtain ⟨⟨hsel, hroi, -, -⟩, hnull⟩ :=
    claim_C3_amended [] [] 1 1 0 1 0 3 true rfl
  exact ⟨rfl, hsel, hroi, rfl, rfl, hnull rfl rfl⟩

/-- Claim C8 is false in its final consequence: the worst-case defaults
do not prevent an unscored candidate from being selected over a scored
one.  Here the before-window policy must choose between a scored
candidate (`roiCloud` 99) and a later unscored one (no cloud-probability
raster, defaulted to `roiCloud` 100): the tie tolerance of 3 puts both
in the near-tie band and the time preference picks the unscored one. -/
theorem claim_C8_counterexample :
    ({ time := 1, cloudprob := none, b2mask := [1] } : RawImage).cloudprob = none
    ∧ ({ time := 0, cloudprob := some [99, 99], b2mask := [1] } : RawImage).cloudprob
        = some [99, 99]
    ∧ (score 2 { time := 0, cloudprob := some [99, 99], b2mask := [1] }).roiCloud = 99
    ∧ (score 2 { time := 1, cloudprob := none, b2mask := [1] }).roiCloud = 100
    ∧ selectMinCloudWithTimePref [{ time := 0, cloudprob := some [99, 99], b2mask := [1] },
          { time := 1, cloudprob := none, b2mask := [1] }] 2 0 2 true
        = SelResult.image (score 2 { time := 1, cloudprob := none, b2mask := [1] }) := by
  refine ⟨rfl, rfl, ?_, ?_, ?_⟩ <;>
    norm_num [selectMinCloudWithTimePref, scoreWindow, filterDate, score, addCloudProb,
      addMetrics, meanQ, eeIfNum, tierSelect, qualityFilter, validOnly, bestOf, minRoiCloud,
      sortByProp, keyLe, keyGe, ofFirst, List.filter, List.insertionSort, List.orderedInsert,
      cloudProbThresh, minValidFrac, maxCloudFrac, cloudTieTolerance, List.replicate]

/-- Claim C8 (amended): a failed metric reduction is substituted by the
worst-case defaults `roiCloud = 100`, `cloudFrac = 1`, `validFrac = 0`;
an absent cloud-probability raster becomes the constant band 100 (so its
mean is 100 and its cloudy fraction 1 whenever the region has samples);
and these defaults are extreme — every candidate whose raw values are in
range scores no better than them on each individual metric.  (The
near-tie tolerance and the distance-dominant nearest key can still
select an unscored candidate over a scored one.) -/
theorem claim_C8_amended (regionPix : ℕ) (p : ProbImage) (r : RawImage) :
    (meanQ p.prob = none → (addMetrics p).roiCloud = 100)
    ∧ (meanQ (p.prob.map fun v => if cloudProbThresh < v then 1 else 0) = none →
        (addMetrics p).cloudFrac = 1)
    ∧ (meanQ p.b2mask = none → (addMetrics p).validFrac = 0)
    ∧ (r.cloudprob = none →
        (∀ v ∈ (addCloudProb regionPix r).prob, v = 100)
        ∧ (0 < regionPix → (score regionPix r).roiCloud = 100
            ∧ (score regionPix r).cloudFrac = 1))
    ∧ ((∀ v ∈ p.prob, v ≤ 100) → (addMetrics p).roiCloud ≤ 100)
    ∧ (addMetrics p).cloudFrac ≤ 1
    ∧ ((∀ v ∈ p.b2mask, 0 ≤ v) → 0 ≤ (addMetrics p).validFrac) := by
  refine ⟨?_, ?_, ?_, ?_, ?_, ?_, ?_⟩
  · intro h
    simp [addMetrics, eeIfNum, h]
  · intro h
    simp [addMetrics, eeIfNum, h]
  · intro h
    simp [addMetrics, eeIfNum, h]
  · intro h
    have hprob : (addCloudProb regionPix r).prob = List.replicate regionPix 100 := by
      simp [addCloudProb, h]
    constructor
    · intro v hv
      rw [hprob] at hv
      exact (List.eq_of_mem_replicate hv)
    · intro hrp
      have hmean : meanQ (addCloudProb regionPix r).prob = some 100 := by
        rw [hprob]
        exact meanQ_replicate hrp 100
      have hmap : (addCloudProb regionPix r).prob.map
          (fun v => if cloudProbThresh < v then 1 else 0) = List.replicate regionPix (1 : ℚ) := by
        rw [hprob, List.map_replicate]
        norm_num [cloudProbThresh]
      constructor
      · simp [score, addMetrics, hmean, eeIfNum]
      · simp [score, addMetrics, hmap, meanQ_replicate hrp, eeIfNum]
  · intro h
    exact eeIfNum_le (meanQ_le h) (by norm_num)
  · refine eeIfNum_le (meanQ_le ?_) (by norm_num)
    intro v hv
    simp only [List.mem_map] at hv
    obtain ⟨w, -, hw⟩ := hv
    rw [← hw]
    split <;> norm_num
  · intro h
    exact eeIfNum_nonneg (meanQ_nonneg h) le_rfl

/-- Witness for the amended C8: a fully masked probability band (no
samples) defaults to `roiCloud = 100`, and an absent raster with one
region sample yields `roiCloud = 100` and `cloudFrac = 1`. -/
theorem claim_C8_amended_witness :
    meanQ (({ time := 0, prob := [], b2mask := [] } : ProbImage).prob) = none
    ∧ (addMetrics { time := 0, prob := [], b2mask := [] }).roiCloud = 100
    ∧ ({ time := 0, cloudprob := none, b2mask := [] } : RawImage).cloudprob = none
    ∧ (score 1 { time := 0, cloudprob := none, b2mask := [] }).roiCloud = 100
    ∧ (score 1 { time := 0, cloudprob := none, b2mask := [] }).cloudFrac = 1 := by
  have h := claim_C8_amended 1 { time := 0, prob := [], b2mask := [] }
    { time := 0, cloudprob := none, b2mask := [] }
  have hnone : meanQ (({ time := 0, prob := [], b2mask := [] } : ProbImage).prob) = none := rfl
  obtain ⟨hs1, hs2⟩ := (h.2.2.2.1 rfl).2 one_pos
  exact ⟨hnone, h.1 hnone, rfl, hs1, hs2⟩

theorem bufferDisk_subset_axisSquare (center : ℝ × ℝ) {h : ℝ} (hh : 0 ≤ h) :
    bufferDisk center h ⊆ axisAlignedSquare center h := by
  rintro ⟨px, py⟩ hp
  simp only [bufferDisk, Set.mem_setOf_eq] at hp
  have hx : (px - center.1) ^ 2 ≤ h ^ 2 := by nlinarith [sq_nonneg (py - center.2)]
  have hy : (py - center.2) ^ 2 ≤ h ^ 2 := by nlinarith [sq_nonneg (px - center.1)]
  obtain ⟨hx1, hx2⟩ := abs_le_of_sq_le_sq' hx hh
  obtain ⟨hy1, hy2⟩ := abs_le_of_sq_le_sq' hy hh
  simp only [axisAlignedSquare, Set.mem_prod, Set.mem_Icc]
  refine ⟨⟨by linarith, by linarith⟩, by linarith, by linarith⟩

theorem axisSquare_minimal (center : ℝ × ℝ) {h : ℝ} (_hh : 0 ≤ h) (b : Set (ℝ × ℝ))
    (hb : IsAxisAlignedBox b) (hsub : bufferDisk center h ⊆ b) :
    axisAlignedSquare center h ⊆ b := by
  obtain ⟨x1, x2, y1, y2, rfl⟩ := hb
  have hdisk : ∀ q : ℝ × ℝ, (q.1 - center.1) ^ 2 + (q.2 - center.2) ^ 2 ≤ h ^ 2 →
      q ∈ Set.Icc x1 x2 ×ˢ Set.Icc y1 y2 := fun q hq => hsub hq
  have hxp := hdisk (center.1 + h, center.2) (by ring_nf; exact le_refl _)
  have hxm := hdisk (center.1 - h, center.2) (by ring_nf; exact le_refl _)
  have hyp := hdisk (center.1, center.2 + h) (by ring_nf; exact le_refl _)
  have hym := hdisk (center.1, center.2 - h) (by ring_nf; exact le_refl _)
  simp only [Set.mem_prod, Set.mem_Icc] at hxp hxm hyp hym
  rintro ⟨px, py⟩ hp
  simp only [axisAlignedSquare, Set.mem_prod, Set.mem_Icc] at hp
  obtain ⟨⟨hpx1, hpx2⟩, hpy1, hpy2⟩ := hp
  simp only [Set.mem_prod, Set.mem_Icc]
  exact ⟨⟨le_trans hxm.1.1 hpx1, le_trans hpx2 hxp.1.2⟩,
    le_trans hym.2.1 hpy1, le_trans hpy2 hyp.2.2⟩

theorem halfSideMeters_nonneg : 0 ≤ halfSideMeters :=
  div_nonneg (Real.sqrt_nonneg _) (by norm_num)

/-- Claim C9: the derived side length is `sqrt(area)` and the half-side
is `sqrt(area)/2` (about 1581 m for 10 km²), and the region polygon —
`bounds()` of the half-side buffer around the projected centre — is the
least axis-aligned box containing that buffer disk, namely the
axis-aligned square of half-side `halfSideMeters` around the centre. -/
theorem claim_C9 (center : ℝ × ℝ) :
    halfSideMeters = sideMeters / 2
    ∧ sideMeters = Real.sqrt (squareAreaKm2 * 1000000)
    ∧ sideMeters ^ 2 = squareAreaKm2 * 1000000
    ∧ 1581 ≤ halfSideMeters
    ∧ halfSideMeters < 1582
    ∧ IsAxisAlignedBox (axisAlignedSquare center halfSideMeters)
    ∧ bufferDisk center halfSideMeters ⊆ axisAlignedSquare center halfSideMeters
    ∧ (∀ b, IsAxisAlignedBox b → bufferDisk center halfSideMeters ⊆ b →
        axisAlignedSquare center halfSideMeters ⊆ b) := by
  have hsq : Real.sqrt (squareAreaKm2 * 1000000) ^ 2 = 10000000 := by
    rw [Real.sq_sqrt] <;> norm_num [squareAreaKm2]
  have hnn := Real.sqrt_nonneg (squareAreaKm2 * 1000000)
  refine ⟨rfl, rfl, ?_, ?_, ?_, ?_, ?_, ?_⟩
  · rw [sideMeters, hsq]
    norm_num [squareAreaKm2]
  · rw [halfSideMeters]
    nlinarith [hsq, hnn]
  · rw [halfSideMeters]
    nlinarith [hsq, hnn]
  · exact ⟨center.1 - halfSideMeters, center.1 + halfSideMeters,
      center.2 - halfSideMeters, center.2 + halfSideMeters, rfl⟩
  · exact bufferDisk_subset_axisSquare center halfSideMeters_nonneg
  · exact fun b hb hsub => axisSquare_minimal center halfSideMeters_nonneg b hb hsub

/-- Witness for C9 at centre (0, 0): the square is itself an axis-aligned
box containing the buffer disk, and minimality applies to it. -/
theorem claim_C9_witness :
    IsAxisAlignedBox (axisAlignedSquare (0, 0) halfSideMeters)
    ∧ bufferDisk (0, 0) halfSideMeters ⊆ axisAlignedSquare (0, 0) halfSideMeters
    ∧ axisAlignedSquare (0, 0) halfSideMeters ⊆ axisAlignedSquare (0, 0) halfSideMeters := by
  obtain ⟨-, -, -, -, -, hbox, hsub, hmin⟩ := claim_C9 (0, 0)
  exact ⟨hbox, hsub, hmin _ hbox hsub⟩

end SLCD
